import Mathlib

/-
Verification of the queryGym query-reformulation toolkit.

This file shallowly embeds the parts of the repository that the checked
properties talk about:

  * src/queryGym/methods/genqr.py            (GENQR.reformulate)
  * src/queryGym/methods/genqr_ensemble.py   (GenQREnsemble._parse_keywords, .reformulate)
  * src/queryGym/methods/mugi.py             (MuGI.reformulate)
  * src/queryGym/methods/query2doc.py        (Query2Doc.reformulate)
  * src/queryGym/methods/qa_expand.py        (parse_llm_json)
  * src/queryGym/methods/lamer.py, csqe.py   (_get_retrieval_params)
  * src/queryGym/core/prompts.py             (PromptBank.render)

Python strings are modelled as Lean `String`s (both are sequences of unicode
code points, so `len`, slicing by one code point, and per-character tests
agree).  Python `dict`s are modelled as association lists in insertion order,
which is how Python dicts behave observably.  Fallible Python code (raising
exceptions) is modelled with `Except String`.  External collaborators (the
LLM chat client, few-shot example selection) are modelled as explicit
parameters carrying their outcome.
-/

namespace QueryGym

/-! ## Python string primitives

Faithful models of the Python `str` operations used by the embedded code. -/

/-- The characters `str.strip()` removes (Python ASCII whitespace:
space, tab, newline, carriage return, vertical tab, form feed).  The same
set is what the regex class `\s` matches on ASCII text. -/
def isPySpace (c : Char) : Bool :=
  c = ' ' || c = '\t' || c = '\n' || c = '\r' || c = '\x0b' || c = '\x0c'

/-- Python `s.strip()`. -/
def pyStrip (s : String) : String :=
  String.mk (((s.data.dropWhile isPySpace).reverse.dropWhile isPySpace).reverse)

/-- Python `s.rstrip()`. -/
def pyRstrip (s : String) : String :=
  String.mk ((s.data.reverse.dropWhile isPySpace).reverse)

/-- Python `s.strip(c)` for a one-character strip set. -/
def pyStripChar (c : Char) (s : String) : String :=
  String.mk (((s.data.dropWhile (· = c)).reverse.dropWhile (· = c)).reverse)

/-- Does the character list `s` start with the pattern `p`? -/
def listStartsWith : List Char → List Char → Bool
  | _, [] => true
  | [], _ :: _ => false
  | c :: cs, p :: ps => c = p && listStartsWith cs ps

/-- Python `s.startswith(p)`. -/
def pyStartswith (s p : String) : Bool :=
  listStartsWith s.data p.data

/-- Python `s.endswith(p)`. -/
def pyEndswith (s p : String) : Bool :=
  listStartsWith s.data.reverse p.data.reverse

/-- Python `c in s` for a single character. -/
def pyContainsChar (s : String) (c : Char) : Bool :=
  s.data.any (· = c)

/-- Helper for `pySplitChar`: accumulates the current field. -/
def pySplitCharGo (sep : Char) (acc : List Char) : List Char → List (List Char)
  | [] => [acc.reverse]
  | c :: cs =>
    if c = sep then acc.reverse :: pySplitCharGo sep [] cs
    else pySplitCharGo sep (c :: acc) cs

/-- Python `s.split(sep)` for a one-character separator: keeps empty fields,
and `"".split(sep) == [""]`. -/
def pySplitChar (s : String) (sep : Char) : List String :=
  (pySplitCharGo sep [] s.data).map String.mk

/-- Python `sep.join(xs)`. -/
def pyJoin (sep : String) : List String → String
  | [] => ("")
  | [x] => x
  | x :: y :: t => x ++ sep ++ pyJoin sep (y :: t)

/-- Helper for `pyReplace`; `fuel` bounds the scan (the source string's
length suffices because the pattern is non-empty at every use site). -/
def pyReplaceGo (pat rep : List Char) : Nat → List Char → List Char
  | 0, cs => cs
  | _, [] => []
  | fuel + 1, c :: cs =>
    if listStartsWith (c :: cs) pat then
      rep ++ pyReplaceGo pat rep fuel (List.drop pat.length (c :: cs))
    else
      c :: pyReplaceGo pat rep fuel cs

/-- Python `s.replace(pat, rep)` (left-to-right, non-overlapping; all uses in
the embedded code have a non-empty `pat`). -/
def pyReplace (s pat rep : String) : String :=
  String.mk (pyReplaceGo pat.data rep.data s.data.length s.data)

/-- Python `s[n:]` by code points. -/
def pyDrop (s : String) (n : Nat) : String :=
  String.mk (s.data.drop n)

/-- Python `s[:-n]` by code points. -/
def pyDropRight (s : String) (n : Nat) : String :=
  String.mk (s.data.take (s.data.length - n))

/-! ## Python values and dicts

`PVal` models the Python values that flow through the embedded code; a
Python `dict` is an association list in insertion order. -/

inductive PVal where
  | none
  | bool (b : Bool)
  | int (n : Int)
  | float (lit : String)
  | str (s : String)
  | list (xs : List PVal)
  | dict (kvs : List (String × PVal))

/-- Python `d.get(k)` / `d[k]` lookup on a dict modelled as an association
list (keys are unique, so first match is the binding). -/
def listLookup (d : List (String × PVal)) (k : String) : Option PVal :=
  match d.find? (fun kv => kv.1 = k) with
  | some kv => some kv.2
  | none => Option.none

/-- Python `k in d`. -/
def hasKey (d : List (String × PVal)) (k : String) : Bool :=
  d.any (fun kv => kv.1 = k)

/-- Python `d[k] = v`: replaces the binding in place if the key exists,
otherwise appends it (Python dicts keep insertion order). -/
def dictInsert (d : List (String × PVal)) (k : String) (v : PVal) :
    List (String × PVal) :=
  if d.any (fun kv => kv.1 = k) then
    d.map (fun kv => if kv.1 = k then (k, v) else kv)
  else
    d ++ [(k, v)]

/-- Python truthiness of a `PVal` (`float` literals in the embedded configs
are non-zero, so they are treated as truthy). -/
def pvTruthy : PVal → Bool
  | PVal.none => false
  | PVal.bool b => b
  | PVal.int n => n ≠ 0
  | PVal.float _ => true
  | PVal.str s => s ≠ ("")
  | PVal.list xs => !xs.isEmpty
  | PVal.dict kvs => !kvs.isEmpty

/-- Is the value a Python mapping (a `dict`)? -/
def PVal.isDict : PVal → Bool
  | PVal.dict _ => true
  | _ => false

/-! ## The concatenation strategy engine (spec-modelled)

The methods under `src/queryGym/methods/` invoke `self.concatenate_result`,
but the repository snapshot does not contain its definition (it lives in the
base-class module that only declares `BaseReformulator.__init__`,
`reformulate` and `reformulate_batch`).  The strategy it dispatches to is
therefore modelled from the specification. -/

/-- Modelled from the spec: the `query_repeat_plus_generated` strategy of the
Concatenation Strategy Engine (the body of `concatenate_result` for methods
declaring `CONCATENATION_STRATEGY = "query_repeat_plus_generated"`, missing
from the source snapshot).  Spec 4.4: output = (query_text repeated
`query_repeats` times, space-joined) + " " + generated_content. -/
def query_repeat_plus_generated (query_text generated_content : String)
    (query_repeats : Nat) : String :=
  pyJoin (" ") (List.replicate query_repeats query_text) ++ (" ") ++ generated_content

/-! ## GenQREnsemble (src/queryGym/methods/genqr_ensemble.py) -/

/-- One step of the bullet-list branch of `GenQREnsemble._parse_keywords`:
`line = line.strip()`, then a leading `-`, `•` or `*` is removed (one code
point, `line[1:]`) and the remainder stripped again. -/
def bulletClean (line : String) : String :=
  let l := pyStrip line
  if pyStartswith l ("-") then pyStrip (pyDrop l 1)
  else if pyStartswith l ("•") then pyStrip (pyDrop l 1)
  else if pyStartswith l ("*") then pyStrip (pyDrop l 1)
  else l

/-- `GenQREnsemble._parse_keywords` (genqr_ensemble.py lines 46-77): if the
output contains a newline or its strip starts with `-`, treat it as a bullet
list (per line: strip, drop a leading bullet, keep non-empty lines);
otherwise split on commas, strip each piece and drop empties. -/
def GenQREnsemble.parse_keywords (keywords_text : String) : List String :=
  if pyContainsChar keywords_text '\n' || pyStartswith (pyStrip keywords_text) ("-") then
    (pySplitChar keywords_text '\n').foldl
      (fun acc line =>
        let line := bulletClean line
        if line ≠ ("") then acc ++ [line] else acc) []
  else
    ((pySplitChar keywords_text ',').map pyStrip).filter (fun k => k ≠ (""))

/-- The keyword merge of `GenQREnsemble.reformulate`.  `outputs` is the list
of raw LLM outputs, one per instruction variant, indexed in variant order.
In the sequential branch the loop runs `completionOrder = [0, 1, ..., n-1]`;
in the parallel branch (lines 104-117) the loop runs over
`as_completed(futures)`, i.e. `completionOrder` is whatever permutation of
the variant indices the thread pool completes in, and `all_keywords` is
extended in that order. -/
def GenQREnsemble.mergedKeywords (outputs : List String)
    (completionOrder : List Nat) : List String :=
  completionOrder.foldl
    (fun acc i => acc ++ GenQREnsemble.parse_keywords (outputs.getD i (""))) []

/-- `generated_content = " ".join(all_keywords)` followed by
`self.concatenate_result(q.text, generated_content)` with the class default
`DEFAULT_QUERY_REPEATS = 5` (genqr_ensemble.py lines 137-141; the strategy
itself is spec-modelled, see `query_repeat_plus_generated`). -/
def GenQREnsemble.reformulated (qtext : String) (outputs : List String)
    (completionOrder : List Nat) : String :=
  query_repeat_plus_generated qtext
    (pyJoin (" ") (GenQREnsemble.mergedKeywords outputs completionOrder)) 5

/-! ## MuGI (src/queryGym/methods/mugi.py) -/

/-- The per-document cleanup `pseudo_doc.strip().strip('"').strip("'")`
(mugi.py lines 65 and 86). -/
def mugiClean (pseudo_doc : String) : String :=
  pyStripChar '\'' (pyStripChar '"' (pyStrip pseudo_doc))

/-- `all_pseudo_docs = ' '.join(pseudo_docs)` where `pseudo_docs` is filled
by appending each completed generation (mugi.py lines 70-71 parallel branch:
completion order; lines 74-87 sequential branch: `completionOrder =
[0, ..., num_docs-1]`).  `docs` is indexed in generation order. -/
def MuGI.allPseudoDocs (docs : List String) (completionOrder : List Nat) : String :=
  pyJoin (" ")
    (completionOrder.foldl (fun acc i => acc ++ [mugiClean (docs.getD i (""))]) [])

/-- The adaptive repetition count computed by `MuGI.reformulate`
(mugi.py lines 96-102):
`max(1, (len(all_pseudo_docs) // len(query_text)) // adaptive_times)` when
the query text is non-empty, else `1`.  `adaptive_times` is the configured
divisor (a positive int; Python would raise `ZeroDivisionError` at zero). -/
def MuGI.repetition_times (query_text all_pseudo_docs : String)
    (adaptive_times : Nat) : Nat :=
  if 0 < query_text.length then
    max 1 ((all_pseudo_docs.length / query_text.length) / adaptive_times)
  else 1

/-! ## GENQR (src/queryGym/methods/genqr.py) -/

/-- The per-generation parsing of `GENQR.reformulate` (genqr.py line 29):
`[t.strip() for t in out.replace("\n", " ").split(",") if t.strip()]`. -/
def genqr_parse_terms (out : String) : List String :=
  ((pySplitChar (pyReplace out ("\n") (" ")) ',').map pyStrip).filter
    (fun t => t ≠ (""))

/-- The observable outcome of one `GENQR.reformulate` call. -/
structure GENQRRun where
  reformulated : String
  all_keywords_lists : List (List String)
  keywords : List String
  llm_calls : Nat

/-- `GENQR.reformulate` (genqr.py lines 17-52).  `chat i` is the LLM output
of the `i`-th call; the method issues one call per loop iteration, so
`llm_calls = n_generations` (default 5).  The loop appends each parsed term
list; then `parts = [q.text] + [" ".join(kws) for kws in lists]` and
`reformulated = " ".join(parts)` — the query text appears once, not
repeated. -/
def GENQR.reformulate (qtext : String) (chat : Nat → String)
    (n_generations : Nat) : GENQRRun :=
  let all_keywords_lists :=
    (List.range n_generations).foldl
      (fun acc i => acc ++ [genqr_parse_terms (chat i)]) []
  let parts :=
    all_keywords_lists.foldl (fun acc kws => acc ++ [pyJoin (" ") kws]) [qtext]
  let all_keywords := all_keywords_lists.foldl (fun acc l => acc ++ l) []
  { reformulated := pyJoin (" ") parts
    all_keywords_lists := all_keywords_lists
    keywords := all_keywords
    llm_calls := n_generations }

/-! ## Retrieval-parameter preparation (lamer.py / csqe.py)

`LameR._get_retrieval_params` (lamer.py lines 49-115) and
`CSQE._get_retrieval_params` (csqe.py lines 136-202) have verbatim-identical
bodies; both are embedded by the single definition below.  Because the
Python function can mutate `self.cfg.params` (through the alias obtained
from `params.get("searcher_kwargs", {})`), the embedding returns both the
result and the post-call state of `cfg.params`. -/

/-- `int(params.get(k, d))` where the stored value, when present, is an int
(as in all of the repository's configs; `int()` coercion of strings is
outside the model). -/
def pvGetInt (params : List (String × PVal)) (k : String) (d : Int) : Int :=
  match listLookup params k with
  | some (PVal.int n) => n
  | _ => d

/-- Python `x is not None` for the result of `d.get(k)`. -/
def isNotNone : Option PVal → Bool
  | some PVal.none => false
  | some _ => true
  | Option.none => false

/-- `LameR._get_retrieval_params` / `CSQE._get_retrieval_params`.  Returns
`(result, params_after)` where `params_after` is the content of
`self.cfg.params` after the call: `searcher_kwargs = params.get("searcher_kwargs", {})`
aliases the dict stored in the config whenever the key is present, so the
subsequent `searcher_kwargs["index"] = params["index"]` writes through into
the config.  (A `searcher_kwargs` value that is not a dict is outside the
model; the repository's configs store a dict there or omit the key.) -/
def get_retrieval_params (params : List (String × PVal)) :
    Option (List (String × PVal)) × List (String × PVal) :=
  if hasKey params ("searcher") then
    (some [(("searcher" : String), (listLookup params ("searcher")).getD PVal.none),
           (("k" : String), PVal.int (pvGetInt params ("retrieval_k") 10)),
           (("threads" : String), PVal.int (pvGetInt params ("threads") 16))],
     params)
  else if hasKey params ("searcher_type") then
    let searcher_type := (listLookup params ("searcher_type")).getD (PVal.str ("pyserini"))
    let kw0 : List (String × PVal) :=
      match listLookup params ("searcher_kwargs") with
      | some (PVal.dict d) => d
      | _ => []
    let aliased : Bool :=
      match listLookup params ("searcher_kwargs") with
      | some (PVal.dict _) => true
      | _ => false
    let mutate := hasKey params ("index") && !(hasKey kw0 ("index"))
    let kw1 :=
      if mutate then dictInsert kw0 ("index") ((listLookup params ("index")).getD PVal.none)
      else kw0
    let params1 :=
      if mutate && aliased then dictInsert params ("searcher_kwargs") (PVal.dict kw1)
      else params
    (some [(("searcher_type" : String), searcher_type),
           (("searcher_kwargs" : String), PVal.dict kw1),
           (("k" : String), PVal.int (pvGetInt params ("retrieval_k") 10)),
           (("threads" : String), PVal.int (pvGetInt params ("threads") 16))],
     params1)
  else
    let indexV := (listLookup params ("index")).getD PVal.none
    if !(pvTruthy indexV) then (Option.none, params)
    else
      let kw0 : List (String × PVal) :=
        [(("index" : String), indexV),
         (("searcher_type" : String),
          PVal.str (if pvTruthy ((listLookup params ("impact")).getD (PVal.bool false))
                    then ("impact") else ("bm25"))),
         (("answer_key" : String),
          (listLookup params ("answer_key")).getD (PVal.str ("contents")))]
      let k1 := listLookup params ("k1")
      let b := listLookup params ("b")
      let kw1 :=
        if isNotNone k1 && isNotNone b then
          dictInsert (dictInsert kw0 ("k1") (k1.getD PVal.none)) ("b") (b.getD PVal.none)
        else kw0
      let kw2 :=
        if pvTruthy ((listLookup params ("rm3")).getD (PVal.bool false)) then
          dictInsert kw1 ("rm3") (PVal.bool true)
        else kw1
      let kw3 :=
        if pvTruthy ((listLookup params ("rocchio")).getD (PVal.bool false)) then
          let t := dictInsert kw2 ("rocchio") (PVal.bool true)
          if pvTruthy ((listLookup params ("rocchio_use_negative")).getD (PVal.bool false)) then
            dictInsert t ("rocchio_use_negative") (PVal.bool true)
          else t
        else kw2
      (some [(("searcher_type" : String), PVal.str ("pyserini")),
             (("searcher_kwargs" : String), PVal.dict kw3),
             (("k" : String), PVal.int (pvGetInt params ("retrieval_k") 10)),
             (("threads" : String), PVal.int (pvGetInt params ("threads") 16))],
       params)

/-- A concrete `cfg.params` content for the methods above: new-style searcher
configuration with an empty `searcher_kwargs` dict and a top-level index. -/
def c5params : List (String × PVal) :=
  [(("searcher_type" : String), PVal.str ("pyserini")),
   (("searcher_kwargs" : String), PVal.dict []),
   (("index" : String), PVal.str ("msmarco-v1-passage"))]

/-- Size of the dict stored under `searcher_kwargs` (a discriminator used to
separate pre- and post-call config contents). -/
def kwLen (params : List (String × PVal)) : Nat :=
  match listLookup params ("searcher_kwargs") with
  | some (PVal.dict d) => d.length
  | _ => 0

/-! ## PromptBank (src/queryGym/core/prompts.py)

A prompt template is the `template` mapping of a catalog entry
(role → format string); a catalog is a mapping id → template.  `str.format`
is modelled for named fields, which is the only feature the catalog's
templates use. -/

/-- Lookup in a template / variable mapping modelled as an association list
of strings. -/
def svLookup (m : List (String × String)) (k : String) : Option String :=
  match m.find? (fun kv => kv.1 = k) with
  | some kv => some kv.2
  | none => Option.none

/-- Python `k in template`. -/
def templContains (template : List (String × String)) (k : String) : Bool :=
  template.any (fun kv => kv.1 = k)

/-- Python `template.get(k, d)`. -/
def templGetD (template : List (String × String)) (k d : String) : String :=
  (svLookup template k).getD d

/-- Recursive worker for `pyFormat`; `fuel` bounds the scan (the template's
length suffices: every step consumes at least one character). -/
def pyFormatGo (vars : List (String × String)) : Nat → List Char → Except String (List Char)
  | _, [] => Except.ok []
  | 0, _ :: _ => Except.error ("format: out of fuel")
  | fuel + 1, c :: cs =>
    if c = '\x7b' then
      match cs with
      | '\x7b' :: rest => (pyFormatGo vars fuel rest).map (fun t => '\x7b' :: t)
      | _ =>
        let nm := cs.takeWhile (fun d => d ≠ '\x7d')
        match cs.dropWhile (fun d => d ≠ '\x7d') with
        | [] => Except.error ("format: expected closing brace")
        | _ :: rest =>
          match svLookup vars (String.mk nm) with
          | some v => (pyFormatGo vars fuel rest).map (fun t => v.data ++ t)
          | Option.none => Except.error (("format: KeyError ") ++ String.mk nm)
    else if c = '\x7d' then
      match cs with
      | '\x7d' :: rest => (pyFormatGo vars fuel rest).map (fun t => '\x7d' :: t)
      | _ => Except.error ("format: single closing brace")
    else
      (pyFormatGo vars fuel cs).map (fun t => c :: t)

/-- Python `template_string.format(**vars)` restricted to simple named
fields (the only form the prompt catalog uses): `\x7bname\x7d` is replaced by
the binding of `name`, a missing binding raises `KeyError`. -/
def pyFormat (template : String) (vars : List (String × String)) : Except String String :=
  (pyFormatGo vars (template.data.length + 1) template.data).map String.mk

/-- One role step of `PromptBank.render` (prompts.py lines 32-45): when the
role is present in the template, format its string and emit one
`(role, content)` message, otherwise emit nothing. -/
def renderRole (template vars : List (String × String)) (role : String) :
    Except String (List (String × String)) :=
  if templContains template role then
    match pyFormat (templGetD template role ("")) vars with
    | Except.ok s => Except.ok [(role, s)]
    | Except.error e => Except.error e
  else Except.ok []

/-- `PromptBank.render` (prompts.py lines 28-47) applied to a template:
emits the system, user and assistant messages in that fixed order, each only
when its role is present in the template. -/
def PromptBank.render (template vars : List (String × String)) :
    Except String (List (String × String)) :=
  match renderRole template vars ("system") with
  | Except.error e => Except.error e
  | Except.ok a =>
    match renderRole template vars ("user") with
    | Except.error e => Except.error e
    | Except.ok b =>
      match renderRole template vars ("assistant") with
      | Except.error e => Except.error e
      | Except.ok c => Except.ok (a ++ b ++ c)

/-- `PromptBank.render` entered through the catalog: `self._by_id[prompt_id]`
raises `KeyError` for an unknown id, then the entry's template is rendered. -/
def PromptBank.renderId (bank : List (String × List (String × String)))
    (prompt_id : String) (vars : List (String × String)) :
    Except String (List (String × String)) :=
  match bank.find? (fun kv => kv.1 = prompt_id) with
  | some kv => PromptBank.render kv.2 vars
  | Option.none => Except.error (("KeyError: ") ++ prompt_id)

/-- The one-entry catalog of the specification's scenario:
`id="greet", template={"user": "Hello \x7bname\x7d"}`. -/
def greetBank : List (String × List (String × String)) :=
  [(("greet" : String), [(("user" : String), ("Hello \x7bname\x7d" : String))])]

/-! ## Query2Doc (src/queryGym/methods/query2doc.py)

`reformulate` runs its whole body inside `try: ... except Exception:` and on
any failure returns the original query with `fallback` metadata.  The
external collaborators are explicit parameters: `selectExamples` is the
outcome of `_select_few_shot_examples` (file/randomness-backed, so its
result or exception is supplied), and `chat` is the outcome of
`self.llm.chat` (`Except.error e` models the collaborator raising with
message `e`).  `temperature` and `max_tokens` are config passthrough values
stored into metadata. -/

/-- The `ReformulationResult` dataclass (src/queryGym/core/base.py). -/
structure ReformulationResult where
  qid : String
  original : String
  reformulated : String
  metadata : List (String × PVal)

/-- `Query2Doc._format_examples` (query2doc.py lines 131-145). -/
def format_examples (examples : List (String × String)) : String :=
  examples.foldl
    (fun acc qp => acc ++ ("Query: ") ++ qp.1 ++ ("\nPassage: ") ++ qp.2 ++ ("\n\n"))
    ("")

/-- `Query2Doc.reformulate` (query2doc.py lines 147-211).  The `try` body:
in few-shot mode select and format examples (any exception propagates to the
handler), record per-mode metadata, call the LLM, raise if the pseudo-doc is
empty or whitespace-only, otherwise concatenate (strategy spec-modelled,
with the query appearing once per spec 4.5).  The `except` handler returns
the original query with `mode`, `error` and `fallback=True` metadata. -/
def Query2Doc.reformulate (qid qtext mode : String) (temperature max_tokens : PVal)
    (selectExamples : Except String (List (String × String)))
    (chat : Except String String) : ReformulationResult :=
  let metadata0 : List (String × PVal) := [(("mode" : String), PVal.str mode)]
  let mdStep : Except String (List (String × PVal)) :=
    if mode = ("fs") ∨ mode = ("fewshot") then
      match selectExamples with
      | Except.error e => Except.error e
      | Except.ok examples =>
        let _examples_text := format_examples examples
        Except.ok (dictInsert (dictInsert metadata0 ("num_examples") (PVal.int examples.length))
          ("prompt_id") (PVal.str ("query2doc.fewshot.v1")))
    else
      let prompt_id := if mode = ("cot") then ("query2doc.cot.v1" : String)
                       else ("query2doc.zeroshot.v1" : String)
      Except.ok (dictInsert metadata0 ("prompt_id") (PVal.str prompt_id))
  let attempt : Except String (String × List (String × PVal)) :=
    match mdStep with
    | Except.error e => Except.error e
    | Except.ok md =>
      match chat with
      | Except.error e => Except.error e
      | Except.ok pseudo_doc =>
        if pseudo_doc = ("") ∨ pyStrip pseudo_doc = ("") then
          Except.error ("LLM returned empty pseudo-document")
        else
          let reformulated := query_repeat_plus_generated qtext pseudo_doc 1
          let md := dictInsert md ("pseudo_doc") (PVal.str pseudo_doc)
          let md := dictInsert md ("temperature") temperature
          let md := dictInsert md ("max_tokens") max_tokens
          Except.ok (reformulated, md)
  match attempt with
  | Except.ok res => ⟨qid, qtext, res.1, res.2⟩
  | Except.error e =>
    ⟨qid, qtext, qtext,
     [(("mode" : String), PVal.str mode),
      (("error" : String), PVal.str (("Query2Doc reformulation failed: ") ++ e)),
      (("fallback" : String), PVal.bool true)]⟩

/-! ## json.loads (Python standard library, collaborator of qa_expand.py)

`parse_llm_json` defers to `json.loads`, so the stdlib JSON parser is
modelled: values are `null`/booleans/numbers/strings/arrays/objects, object
keys keep first-occurrence position with later duplicates overwriting, and
trailing garbage is an error (`Extra data`).  Non-integer numbers are kept
as their lexeme (`PVal.float`); `NaN`/`Infinity` literals are outside the
model (the embedded inputs never contain them). -/

/-- JSON whitespace (what `json.loads` skips between tokens). -/
def jsonWs (c : Char) : Bool :=
  c = ' ' || c = '\t' || c = '\n' || c = '\r'

/-- Hexadecimal digit value, for `\u` escapes. -/
def hexVal (c : Char) : Option Nat :=
  if c.isDigit then some (c.toNat - ('0').toNat)
  else if 'a' ≤ c ∧ c ≤ 'f' then some (c.toNat - ('a').toNat + 10)
  else if 'A' ≤ c ∧ c ≤ 'F' then some (c.toNat - ('A').toNat + 10)
  else Option.none

/-- JSON string-literal body parser (the opening quote is already consumed);
returns the decoded string and the remaining input. -/
def jsonStringGo : List Char → List Char → Except String (String × List Char)
  | _, [] => Except.error ("Unterminated string")
  | acc, c :: cs =>
    if c = '"' then Except.ok (String.mk acc.reverse, cs)
    else if c = '\\' then
      match cs with
      | [] => Except.error ("Unterminated string")
      | e :: cs' =>
        if e = '"' then jsonStringGo ('"' :: acc) cs'
        else if e = '\\' then jsonStringGo ('\\' :: acc) cs'
        else if e = '/' then jsonStringGo ('/' :: acc) cs'
        else if e = 'b' then jsonStringGo ('\x08' :: acc) cs'
        else if e = 'f' then jsonStringGo ('\x0c' :: acc) cs'
        else if e = 'n' then jsonStringGo ('\n' :: acc) cs'
        else if e = 'r' then jsonStringGo ('\r' :: acc) cs'
        else if e = 't' then jsonStringGo ('\t' :: acc) cs'
        else if e = 'u' then
          match cs' with
          | h1 :: h2 :: h3 :: h4 :: rest =>
            match hexVal h1, hexVal h2, hexVal h3, hexVal h4 with
            | some a, some b, some c2, some d =>
              jsonStringGo (Char.ofNat (a * 4096 + b * 256 + c2 * 16 + d) :: acc) rest
            | _, _, _, _ => Except.error ("Invalid hex escape")
          | _ => Except.error ("Invalid hex escape")
        else Except.error ("Invalid escape")
    else jsonStringGo (c :: acc) cs

/-- Digits to a natural number. -/
def digitsToNat (ds : List Char) : Nat :=
  ds.foldl (fun n c => n * 10 + (c.toNat - ('0').toNat)) 0

/-- JSON number parser (grammar `-?(0|[1-9][0-9]*)(\.[0-9]+)?([eE][+-]?[0-9]+)?`,
the regex `json.scanner` uses).  An integral lexeme yields `PVal.int`;
a fractional/exponent lexeme is kept as `PVal.float` with its text. -/
def jsonNumber (cs : List Char) : Except String (PVal × List Char) :=
  let signed := match cs with
    | '-' :: rest => (true, rest)
    | _ => (false, cs)
  let sign := signed.1
  let cs1 := signed.2
  match cs1 with
  | [] => Except.error ("Expecting value")
  | d :: _ =>
    if ¬ d.isDigit then Except.error ("Expecting value")
    else
      let intPart := if d = '0' then [d] else cs1.takeWhile Char.isDigit
      let cs2 := if d = '0' then cs1.drop 1 else cs1.dropWhile Char.isDigit
      let fracStep :=
        match cs2 with
        | '.' :: rest =>
          let ds := rest.takeWhile Char.isDigit
          if ds.isEmpty then (([] : List Char), cs2)
          else ('.' :: ds, rest.dropWhile Char.isDigit)
        | _ => (([] : List Char), cs2)
      let fracPart := fracStep.1
      let cs3 := fracStep.2
      let expStep :=
        match cs3 with
        | e :: rest =>
          if e = 'e' ∨ e = 'E' then
            match rest with
            | s :: rest2 =>
              if s = '+' ∨ s = '-' then
                let ds := rest2.takeWhile Char.isDigit
                if ds.isEmpty then (([] : List Char), cs3)
                else (e :: s :: ds, rest2.dropWhile Char.isDigit)
              else
                let ds := rest.takeWhile Char.isDigit
                if ds.isEmpty then (([] : List Char), cs3)
                else (e :: ds, rest.dropWhile Char.isDigit)
            | [] => (([] : List Char), cs3)
          else (([] : List Char), cs3)
        | [] => (([] : List Char), cs3)
      let expPart := expStep.1
      let cs4 := expStep.2
      if fracPart.isEmpty ∧ expPart.isEmpty then
        let n : Int := Int.ofNat (digitsToNat intPart)
        Except.ok (PVal.int (if sign then -n else n), cs4)
      else
        Except.ok
          (PVal.float (String.mk ((if sign then ['-'] else []) ++ intPart ++ fracPart ++ expPart)),
           cs4)

mutual

/-- JSON value parser; `fuel` bounds the recursion depth (twice the input
length plus a constant always suffices, since at least one character is
consumed for every two fuel units). -/
def jsonValue : Nat → List Char → Except String (PVal × List Char)
  | 0, _ => Except.error ("Out of fuel")
  | fuel + 1, cs =>
    match cs.dropWhile jsonWs with
    | [] => Except.error ("Expecting value")
    | c :: rest =>
      if c = '"' then
        (jsonStringGo [] rest).map (fun p => (PVal.str p.1, p.2))
      else if c = '\x7b' then
        match rest.dropWhile jsonWs with
        | '\x7d' :: rest2 => Except.ok (PVal.dict [], rest2)
        | _ => jsonMembers fuel [] (rest.dropWhile jsonWs)
      else if c = '[' then
        match rest.dropWhile jsonWs with
        | ']' :: rest2 => Except.ok (PVal.list [], rest2)
        | _ => jsonItems fuel [] (rest.dropWhile jsonWs)
      else if listStartsWith (c :: rest) (("true").data) then
        Except.ok (PVal.bool true, (c :: rest).drop 4)
      else if listStartsWith (c :: rest) (("false").data) then
        Except.ok (PVal.bool false, (c :: rest).drop 5)
      else if listStartsWith (c :: rest) (("null").data) then
        Except.ok (PVal.none, (c :: rest).drop 4)
      else if c = '-' ∨ c.isDigit then jsonNumber (c :: rest)
      else Except.error ("Expecting value")

/-- Object members (input starts at a member's key, whitespace skipped);
duplicate keys behave like repeated dict assignment (last value wins). -/
def jsonMembers : Nat → List (String × PVal) → List Char →
    Except String (PVal × List Char)
  | 0, _, _ => Except.error ("Out of fuel")
  | fuel + 1, acc, cs =>
    match cs with
    | '"' :: rest =>
      match jsonStringGo [] rest with
      | Except.error e => Except.error e
      | Except.ok (k, rest2) =>
        match rest2.dropWhile jsonWs with
        | ':' :: rest3 =>
          match jsonValue fuel rest3 with
          | Except.error e => Except.error e
          | Except.ok (v, rest4) =>
            match rest4.dropWhile jsonWs with
            | ',' :: rest5 => jsonMembers fuel (dictInsert acc k v) (rest5.dropWhile jsonWs)
            | '\x7d' :: rest5 => Except.ok (PVal.dict (dictInsert acc k v), rest5)
            | _ => Except.error ("Expecting comma delimiter")
        | _ => Except.error ("Expecting colon delimiter")
    | _ => Except.error ("Expecting property name enclosed in double quotes")

/-- Array items (input starts at an item). -/
def jsonItems : Nat → List PVal → List Char → Except String (PVal × List Char)
  | 0, _, _ => Except.error ("Out of fuel")
  | fuel + 1, acc, cs =>
    match jsonValue fuel cs with
    | Except.error e => Except.error e
    | Except.ok (v, rest) =>
      match rest.dropWhile jsonWs with
      | ',' :: rest2 => jsonItems fuel (acc ++ [v]) rest2
      | ']' :: rest2 => Except.ok (PVal.list (acc ++ [v]), rest2)
      | _ => Except.error ("Expecting comma delimiter")

end

/-- Python `json.loads`: parse one JSON value, allow surrounding whitespace,
reject trailing content (`Extra data`), raise `JSONDecodeError` (modelled as
`Except.error`) on malformed input. -/
def json_loads (s : String) : Except String PVal :=
  match jsonValue (2 * s.data.length + 4) s.data with
  | Except.error e => Except.error e
  | Except.ok (v, rest) =>
    if (rest.dropWhile jsonWs).isEmpty then Except.ok v
    else Except.error ("Extra data")

/-! ## parse_llm_json (src/queryGym/methods/qa_expand.py lines 7-94) -/

/-- `re.sub(r',(\s*[}\]])', r'\1', text)`: each comma directly followed by
optional whitespace and a closing brace/bracket is dropped (the whitespace
and bracket are kept); scanning is leftmost and non-overlapping, resuming
after the bracket. -/
def rtcGo : Nat → List Char → List Char
  | 0, cs => cs
  | _, [] => []
  | fuel + 1, c :: rest =>
    if c = ',' then
      let sp := rest.takeWhile isPySpace
      match rest.dropWhile isPySpace with
      | b :: tail =>
        if b = '\x7d' || b = ']' then sp ++ b :: rtcGo fuel tail
        else c :: rtcGo fuel rest
      | [] => c :: rtcGo fuel rest
    else c :: rtcGo fuel rest

/-- The trailing-comma cleanup of qa_expand.py line 42. -/
def removeTrailingCommas (s : String) : String :=
  String.mk (rtcGo s.data.length s.data)

/-- The regex word class `\w` (ASCII; the unicode extension is irrelevant to
the embedded inputs). -/
def isWordChar (c : Char) : Bool :=
  c.isAlphanum || c = '_'

/-- A single or double quote, the class `["\']`. -/
def isQuoteChar (c : Char) : Bool :=
  c = '"' || c = '\''

/-- Matcher for `["\'](\w+)["\']\s*:\s*["\']([^"\']*)["\']` at the start of
the input (the pattern is deterministic: no quantifier can profitably
backtrack).  Returns the two groups and the rest of the input. -/
def matchP1 : List Char → Option ((String × String) × List Char)
  | [] => Option.none
  | q1 :: rest =>
    if ¬ isQuoteChar q1 then Option.none
    else
      let w := rest.takeWhile isWordChar
      if w.isEmpty then Option.none
      else
        match rest.dropWhile isWordChar with
        | q2 :: rest2 =>
          if ¬ isQuoteChar q2 then Option.none
          else
            match rest2.dropWhile isPySpace with
            | ':' :: rest3 =>
              match rest3.dropWhile isPySpace with
              | q3 :: rest4 =>
                if ¬ isQuoteChar q3 then Option.none
                else
                  let v := rest4.takeWhile (fun c => ¬ isQuoteChar c)
                  match rest4.dropWhile (fun c => ¬ isQuoteChar c) with
                  | _ :: rest5 => some ((String.mk w, String.mk v), rest5)
                  | [] => Option.none
              | [] => Option.none
            | _ => Option.none
        | [] => Option.none

/-- Matcher for `(\w+)\s*:\s*["\']([^"\']*)["\']` at the start of the
input. -/
def matchP2 (cs : List Char) : Option ((String × String) × List Char) :=
  let w := cs.takeWhile isWordChar
  if w.isEmpty then Option.none
  else
    let rest := cs.dropWhile isWordChar
    match rest.dropWhile isPySpace with
    | ':' :: rest2 =>
      match rest2.dropWhile isPySpace with
      | q :: rest3 =>
        if ¬ isQuoteChar q then Option.none
        else
          let v := rest3.takeWhile (fun c => ¬ isQuoteChar c)
          match rest3.dropWhile (fun c => ¬ isQuoteChar c) with
          | _ :: rest4 => some ((String.mk w, String.mk v), rest4)
          | [] => Option.none
      | [] => Option.none
    | _ => Option.none

/-- Matcher for `["\'](\w+)["\']\s*:\s*([^,}\]]+)` at the start of the
input.  The only backtracking the pattern admits: when the greedy `\s*`
leaves nothing for the value group, the group instead captures the last
whitespace character. -/
def matchP3 : List Char → Option ((String × String) × List Char)
  | [] => Option.none
  | q1 :: rest =>
    if ¬ isQuoteChar q1 then Option.none
    else
      let w := rest.takeWhile isWordChar
      if w.isEmpty then Option.none
      else
        match rest.dropWhile isWordChar with
        | q2 :: rest2 =>
          if ¬ isQuoteChar q2 then Option.none
          else
            match rest2.dropWhile isPySpace with
            | ':' :: rest3 =>
              let rest4 := rest3.dropWhile isPySpace
              let v := rest4.takeWhile (fun c => ¬ (c = ',' || c = '\x7d' || c = ']'))
              if ¬ v.isEmpty then some ((String.mk w, String.mk v), rest4.drop v.length)
              else
                match (rest3.takeWhile isPySpace).reverse with
                | l :: _ => some ((String.mk w, String.mk [l]), rest4)
                | [] => Option.none
            | _ => Option.none
        | [] => Option.none

/-- `re.findall` over a two-group pattern: scan left to right, emitting
non-overlapping matches and resuming after each one. -/
def findallGo (m : List Char → Option ((String × String) × List Char)) :
    Nat → List Char → List (String × String)
  | 0, _ => []
  | _, [] => []
  | fuel + 1, c :: rest =>
    match m (c :: rest) with
    | some (kv, after) => kv :: findallGo m fuel after
    | Option.none => findallGo m fuel rest

/-- The key/value pairs found by the three fallback patterns of
qa_expand.py lines 77-81, in pattern order. -/
def regexFallbackPairs (text : String) : List (String × String) :=
  findallGo matchP1 text.data.length text.data ++
  findallGo matchP2 text.data.length text.data ++
  findallGo matchP3 text.data.length text.data

/-- The fallback extraction loop of qa_expand.py lines 83-87:
`if key and value: result[key] = value.strip()`. -/
def regexFallback (text : String) : List (String × PVal) :=
  (regexFallbackPairs text).foldl
    (fun acc kv =>
      if kv.1 ≠ ("") ∧ kv.2 ≠ ("") then dictInsert acc kv.1 (PVal.str (pyStrip kv.2))
      else acc) []

/-- The markdown code-fence removal of qa_expand.py lines 24-30 (the
input starts with three backticks): drop through the first newline if there
is one, drop a trailing fence, strip. -/
def stripFence (text : String) : String :=
  let text := if pyContainsChar text '\n'
              then String.mk ((text.data.dropWhile (fun c => c ≠ '\n')).drop 1)
              else text
  let text := if pyEndswith text ("```") then pyDropRight text 3 else text
  pyStrip text

/-- `text.count('"')` restricted to double quotes. -/
def countDoubleQuote (s : String) : Nat :=
  (s.data.filter (fun c => c = '"')).length

/-- `parse_llm_json` (qa_expand.py lines 7-94): strip, remove a markdown
fence, unescape `\"`/`\n`/`\t`, then try `json.loads` on the text, on the
text with trailing commas removed, and on the text with single quotes
replaced by double quotes; then try closing truncated JSON (odd quote count
gets a closing quote, a missing final brace is appended); finally fall back
to regex key/value extraction, returning an empty dict if nothing matched.
Whatever `json.loads` first succeeds on is returned as-is — including
non-mapping JSON values. -/
def parse_llm_json (text : String) : PVal :=
  if text = ("") ∨ pyStrip text = ("") then PVal.dict []
  else
    let text := pyStrip text
    let text := if pyStartswith text ("```") then stripFence text else text
    let text := pyReplace (pyReplace (pyReplace text ("\\\"") ("\"")) ("\\n") ("\n")) ("\\t") ("\t")
    match json_loads text with
    | Except.ok v => v
    | Except.error _ =>
      match json_loads (removeTrailingCommas text) with
      | Except.ok v => v
      | Except.error _ =>
        match json_loads (pyReplace text ("'") ("\"")) with
        | Except.ok v => v
        | Except.error _ =>
          let closed : Except String PVal :=
            if pyContainsChar text '\x7b' then
              let attempt := pyRstrip text
              let attempt := if countDoubleQuote attempt % 2 = 1 then attempt ++ ("\"") else attempt
              let attempt := if ¬ pyEndswith attempt ("\x7d") then attempt ++ ("\x7d") else attempt
              json_loads attempt
            else Except.error ("no object start")
          match closed with
          | Except.ok v => v
          | Except.error _ =>
            let result := regexFallback text
            if ¬ result.isEmpty then PVal.dict result else PVal.dict []

/-! ## Helper lemmas -/

theorem pyJoin_cons_of_ne_nil (sep x : String) (xs : List String) (h : xs ≠ []) :
    pyJoin sep (x :: xs) = x ++ sep ++ pyJoin sep xs := by
  cases xs with
  | nil => exact absurd rfl h
  | cons y t => rfl

theorem foldl_append_map {α β : Type} (f : α → β) (l : List α) (init : List β) :
    l.foldl (fun acc x => acc ++ [f x]) init = init ++ l.map f := by
  induction l generalizing init with
  | nil => simp
  | cons x t ih => rw [List.foldl_cons, ih]; simp

theorem foldl_append_flatten {α : Type} (l : List (List α)) (init : List α) :
    l.foldl (fun acc x => acc ++ x) init = init ++ l.flatten := by
  induction l generalizing init with
  | nil => simp
  | cons x t ih => rw [List.foldl_cons, ih]; simp

/-! ## Claim theorems -/

/-- C1: for every query text `q`, generated content `g` and repeat count `r`,
the `query_repeat_plus_generated` strategy returns the query text repeated
`r` times, space-joined, followed by a space and then `g`: concretely
`strategy("cats", "dogs birds", repeats=3) = "cats cats cats dogs birds"`,
and in general (for `r ≥ 1`) the output is the space-join of `r` copies of
`q` followed by `g`. -/
theorem query_repeat_plus_generated_spec :
    query_repeat_plus_generated ("cats") ("dogs birds") 3 = ("cats cats cats dogs birds") ∧
    ∀ (q g : String) (r : Nat),
      query_repeat_plus_generated q g (r + 1) =
        pyJoin (" ") (List.replicate (r + 1) q ++ [g]) := by
  constructor
  · rfl
  · intro q g r
    induction r with
    | zero => rfl
    | succ n ih =>
      have h1 : query_repeat_plus_generated q g (n + 1 + 1)
          = q ++ (" ") ++ query_repeat_plus_generated q g (n + 1) := by
        show pyJoin (" ") (List.replicate (n + 1 + 1) q) ++ (" ") ++ g = _
        rw [List.replicate_succ (n := n + 1),
            pyJoin_cons_of_ne_nil (" ") q (List.replicate (n + 1) q) (by simp)]
        unfold query_repeat_plus_generated
        simp [String.append_assoc]
      have h2 : pyJoin (" ") (List.replicate (n + 1 + 1) q ++ [g])
          = q ++ (" ") ++ pyJoin (" ") (List.replicate (n + 1) q ++ [g]) := by
        rw [List.replicate_succ (n := n + 1), List.cons_append,
            pyJoin_cons_of_ne_nil (" ") q (List.replicate (n + 1) q ++ [g]) (by simp)]
      rw [h1, h2, ih]

/-- C2: the claim states that with the parallel flag set the merged keyword
list, the reformulated string and the pseudo-document concatenation are the
same for every completion order of the concurrent calls.  The code appends
each result as its future completes (`as_completed`) without re-sorting, so
two completion orders of the same per-variant outputs produce different
merges: with variant outputs `["a", "b"]`, completion order variant 2 first
yields `"... b a"` where variant order yields `"... a b"`. -/
theorem ensemble_merge_depends_on_completion_order :
    GenQREnsemble.mergedKeywords [("a"), ("b")] [1, 0] = [("b"), ("a")] ∧
    GenQREnsemble.mergedKeywords [("a"), ("b")] [0, 1] = [("a"), ("b")] ∧
    GenQREnsemble.reformulated ("q") [("a"), ("b")] [1, 0] = ("q q q q q b a") ∧
    GenQREnsemble.reformulated ("q") [("a"), ("b")] [0, 1] = ("q q q q q a b") ∧
    GenQREnsemble.reformulated ("q") [("a"), ("b")] [1, 0]
        ≠ GenQREnsemble.reformulated ("q") [("a"), ("b")] [0, 1] ∧
    MuGI.allPseudoDocs [("a"), ("b")] [1, 0] = ("b a") ∧
    MuGI.allPseudoDocs [("a"), ("b")] [0, 1] = ("a b") ∧
    MuGI.allPseudoDocs [("a"), ("b")] [1, 0]
        ≠ MuGI.allPseudoDocs [("a"), ("b")] [0, 1] :=
  ⟨rfl, rfl, rfl, rfl, by decide, rfl, rfl, by decide⟩

/-- C8: the keyword parser round-trips the specification's examples:
comma-separated input is comma-split, trimmed and empties dropped;
bulleted/newline-separated input has the leading bullet stripped per line;
the empty string parses to the empty list. -/
theorem parse_keywords_round_trip :
    GenQREnsemble.parse_keywords ("a, b, c") = [("a"), ("b"), ("c")] ∧
    GenQREnsemble.parse_keywords ("- a\n- b") = [("a"), ("b")] ∧
    GenQREnsemble.parse_keywords ("") = [] :=
  ⟨rfl, rfl, rfl⟩

/-- C3: the adaptive repetition count computed by `MuGI.reformulate`
satisfies `repetition_times = max(1, (len(generated_content) //
len(query_text)) // adaptive_times)` for a non-empty query text, equals `1`
for an empty query text, and is always at least `1`.  The hypothesis
`0 < a` records that the configured divisor is a positive int (Python would
raise `ZeroDivisionError` at zero, so the formula is only exercised
there). -/
theorem mugi_repetition_times_spec (q g : String) (a : Nat) (_ha : 0 < a) :
    (q ≠ ("") → MuGI.repetition_times q g a = max 1 ((g.length / q.length) / a)) ∧
    (q = ("") → MuGI.repetition_times q g a = 1) ∧
    1 ≤ MuGI.repetition_times q g a := by
  refine ⟨?_, ?_, ?_⟩
  · intro hq
    have hlen : 0 < q.length := by
      cases q with
      | mk data =>
        cases data with
        | nil => exact absurd rfl hq
        | cons c cs => simp [String.length]
    unfold MuGI.repetition_times
    rw [if_pos hlen]
  · intro hq
    subst hq
    rfl
  · unfold MuGI.repetition_times
    split
    · exact le_max_left 1 _
    · exact le_refl 1

/-- Witness for `mugi_repetition_times_spec`: a non-empty and an empty query
text, with every hypothesis discharged at the concrete inputs. -/
theorem mugi_repetition_times_spec_witness :
    MuGI.repetition_times ("ab") ("abcdefgh") 2
        = max 1 ((("abcdefgh" : String).length / ("ab" : String).length) / 2) ∧
    MuGI.repetition_times ("") ("xyz") 3 = 1 ∧
    1 ≤ MuGI.repetition_times ("ab") ("abcdefgh") 2 :=
  ⟨(mugi_repetition_times_spec ("ab") ("abcdefgh") 2 (by decide)).1 (by decide),
   (mugi_repetition_times_spec ("") ("xyz") 3 (by decide)).2.1 rfl,
   (mugi_repetition_times_spec ("ab") ("abcdefgh") 2 (by decide)).2.2⟩

/-- C4 counterexample: the claim says the basic keyword-expansion method
makes exactly 1 LLM call and prefixes the query repeated 5 times.  On the
code, with every call answering `"dogs, dog"`, `GENQR.reformulate` makes 5
calls (the default `n_generations`) and its output starts with the query
text once — it does not start with the query repeated even twice. -/
theorem genqr_basic_claim_cex :
    (GENQR.reformulate ("cats") (fun _ => ("dogs, dog")) 5).llm_calls = 5 ∧
    ¬ (GENQR.reformulate ("cats") (fun _ => ("dogs, dog")) 5).llm_calls = 1 ∧
    (GENQR.reformulate ("cats") (fun _ => ("dogs, dog")) 5).reformulated
        = ("cats dogs dog dogs dog dogs dog dogs dog dogs dog") ∧
    pyStartswith (GENQR.reformulate ("cats") (fun _ => ("dogs, dog")) 5).reformulated
        ("cats cats") = false :=
  ⟨rfl, by decide, rfl, rfl⟩

/-- C4 (amended): for every query, `genqr` makes `n_generations` LLM calls
(default 5); each output has newlines replaced by spaces and is split on
commas with terms trimmed and empties dropped (so an empty LLM output yields
an empty keyword list, not an error); the reformulated string is the query
text once followed by each generation's keywords, all space-joined. -/
theorem genqr_basic_amended_spec (q : String) (chat : Nat → String) (n : Nat) :
    (GENQR.reformulate q chat n).llm_calls = n ∧
    (GENQR.reformulate q chat n).all_keywords_lists
        = (List.range n).map (fun i => genqr_parse_terms (chat i)) ∧
    (GENQR.reformulate q chat n).reformulated
        = pyJoin (" ")
            (q :: (List.range n).map (fun i => pyJoin (" ") (genqr_parse_terms (chat i)))) ∧
    (GENQR.reformulate q chat n).keywords
        = ((List.range n).map (fun i => genqr_parse_terms (chat i))).flatten ∧
    genqr_parse_terms ("") = [] := by
  refine ⟨rfl, ?_, ?_, ?_, rfl⟩
  · show (List.range n).foldl (fun acc i => acc ++ [genqr_parse_terms (chat i)]) []
        = (List.range n).map (fun i => genqr_parse_terms (chat i))
    rw [foldl_append_map]
    simp
  · show pyJoin (" ")
        (((List.range n).foldl (fun acc i => acc ++ [genqr_parse_terms (chat i)]) []).foldl
          (fun acc kws => acc ++ [pyJoin (" ") kws]) [q]) = _
    rw [foldl_append_map (fun i => genqr_parse_terms (chat i)),
        foldl_append_map (fun kws => pyJoin (" ") kws)]
    simp [List.map_map, Function.comp_def]
  · show ((List.range n).foldl (fun acc i => acc ++ [genqr_parse_terms (chat i)]) []).foldl
        (fun acc l => acc ++ l) [] = _
    rw [foldl_append_map (fun i => genqr_parse_terms (chat i)), foldl_append_flatten]
    simp

/-- C5: the claim states that `cfg.params` is never mutated by any method
operation.  `_get_retrieval_params` (identical in `LameR` and `CSQE`)
aliases the `searcher_kwargs` dict held inside `cfg.params` and writes
`"index"` into it, so with `params = {"searcher_type": "pyserini",
"searcher_kwargs": {}, "index": "msmarco-v1-passage"}` the config's
`searcher_kwargs` grows from zero entries to one and the post-call params
differ from the pre-call params. -/
theorem get_retrieval_params_mutates_config :
    kwLen c5params = 0 ∧
    kwLen (get_retrieval_params c5params).2 = 1 ∧
    listLookup (get_retrieval_params c5params).2 ("searcher_kwargs")
        = some (PVal.dict [(("index" : String), PVal.str ("msmarco-v1-passage"))]) ∧
    ¬ (get_retrieval_params c5params).2 = c5params := by
  refine ⟨rfl, rfl, rfl, ?_⟩
  intro h
  have h2 := congrArg kwLen h
  rw [show kwLen (get_retrieval_params c5params).2 = 1 from rfl,
      show kwLen c5params = 0 from rfl] at h2
  exact Nat.one_ne_zero h2

/-- C6: for every query and mode, when the LLM chat collaborator raises
during pseudo-document generation, `Query2Doc.reformulate` does not
propagate the exception: the result's `reformulated` equals the original
query text, `metadata["fallback"]` is `True`, and the metadata carries an
error description.  (In few-shot mode an earlier failure of example
selection reaches the same handler, so the conclusion holds for every
outcome of that step.) -/
theorem query2doc_exception_fallback (qid qtext mode : String)
    (temperature max_tokens : PVal)
    (selectExamples : Except String (List (String × String))) (e : String) :
    (Query2Doc.reformulate qid qtext mode temperature max_tokens selectExamples
        (Except.error e)).reformulated = qtext ∧
    (Query2Doc.reformulate qid qtext mode temperature max_tokens selectExamples
        (Except.error e)).original = qtext ∧
    listLookup (Query2Doc.reformulate qid qtext mode temperature max_tokens selectExamples
        (Except.error e)).metadata ("fallback") = some (PVal.bool true) ∧
    ∃ msg, listLookup (Query2Doc.reformulate qid qtext mode temperature max_tokens
        selectExamples (Except.error e)).metadata ("error") = some (PVal.str msg) := by
  by_cases hm : mode = ("fs") ∨ mode = ("fewshot")
  · cases selectExamples with
    | error ex =>
      simp only [Query2Doc.reformulate, if_pos hm]
      exact ⟨by trivial, by trivial, by trivial, _, by rfl⟩
    | ok exs =>
      simp only [Query2Doc.reformulate, if_pos hm]
      exact ⟨by trivial, by trivial, by trivial, _, by rfl⟩
  · simp only [Query2Doc.reformulate, if_neg hm]
    exact ⟨by trivial, by trivial, by trivial, _, by rfl⟩

/-- C10: for every query and mode, when the LLM chat call returns an empty
or whitespace-only string, `Query2Doc.reformulate` does not treat it as a
normal empty generation: it takes the identity-fallback path, with
`reformulated` equal to the original query text, `metadata["fallback"]`
equal to `True` and an error description in the metadata. -/
theorem query2doc_empty_output_fallback (qid qtext mode : String)
    (temperature max_tokens : PVal)
    (selectExamples : Except String (List (String × String))) (s : String)
    (h : pyStrip s = ("")) :
    (Query2Doc.reformulate qid qtext mode temperature max_tokens selectExamples
        (Except.ok s)).reformulated = qtext ∧
    (Query2Doc.reformulate qid qtext mode temperature max_tokens selectExamples
        (Except.ok s)).original = qtext ∧
    listLookup (Query2Doc.reformulate qid qtext mode temperature max_tokens selectExamples
        (Except.ok s)).metadata ("fallback") = some (PVal.bool true) ∧
    ∃ msg, listLookup (Query2Doc.reformulate qid qtext mode temperature max_tokens
        selectExamples (Except.ok s)).metadata ("error") = some (PVal.str msg) := by
  by_cases hm : mode = ("fs") ∨ mode = ("fewshot")
  · cases selectExamples with
    | error ex =>
      simp only [Query2Doc.reformulate, if_pos hm]
      exact ⟨by trivial, by trivial, by trivial, _, by rfl⟩
    | ok exs =>
      simp only [Query2Doc.reformulate, if_pos hm, if_pos (Or.inr h)]
      exact ⟨by trivial, by trivial, by trivial, _, by rfl⟩
  · simp only [Query2Doc.reformulate, if_neg hm, if_pos (Or.inr h)]
    exact ⟨by trivial, by trivial, by trivial, _, by rfl⟩

/-- Witness for `query2doc_empty_output_fallback`: a whitespace-only chat
result in zero-shot mode, hypothesis discharged at the concrete input. -/
theorem query2doc_empty_output_fallback_witness :
    (Query2Doc.reformulate ("q1") ("cats") ("zs") PVal.none PVal.none
        (Except.ok []) (Except.ok ("  "))).reformulated = ("cats") ∧
    (Query2Doc.reformulate ("q1") ("cats") ("zs") PVal.none PVal.none
        (Except.ok []) (Except.ok ("  "))).original = ("cats") ∧
    listLookup (Query2Doc.reformulate ("q1") ("cats") ("zs") PVal.none PVal.none
        (Except.ok []) (Except.ok ("  "))).metadata ("fallback") = some (PVal.bool true) ∧
    ∃ msg, listLookup (Query2Doc.reformulate ("q1") ("cats") ("zs") PVal.none PVal.none
        (Except.ok []) (Except.ok ("  "))).metadata ("error") = some (PVal.str msg) :=
  query2doc_empty_output_fallback ("q1") ("cats") ("zs") PVal.none PVal.none
    (Except.ok []) ("  ") rfl

theorem renderRole_ok_roles (template vars : List (String × String)) (role : String)
    (l : List (String × String)) (h : renderRole template vars role = Except.ok l) :
    l.map Prod.fst = if templContains template role then [role] else [] := by
  unfold renderRole at h
  by_cases hc : templContains template role
  · rw [if_pos hc] at h ⊢
    cases hf : pyFormat (templGetD template role ("")) vars with
    | ok s =>
      rw [hf] at h
      injection h with h2
      subst h2
      rfl
    | error e =>
      rw [hf] at h
      exact Except.noConfusion h
  · rw [if_neg hc] at h ⊢
    injection h with h2
    subst h2
    rfl

/-- C7: for the one-entry catalog `id="greet",
template = ("user" : "Hello \x7bname\x7d")`, rendering `greet` with
`name = "Ada"` returns exactly one user message `"Hello Ada"`; and in
general `PromptBank.render` emits only the roles present in the template,
in the fixed order system, user, assistant, with each placeholder replaced
by its keyword binding. -/
theorem promptbank_render_spec :
    PromptBank.renderId greetBank ("greet") [(("name" : String), ("Ada" : String))]
        = Except.ok [(("user" : String), ("Hello Ada" : String))] ∧
    ∀ (template vars msgs : List (String × String)),
      PromptBank.render template vars = Except.ok msgs →
      msgs.map Prod.fst =
        ([("system" : String), ("user" : String), ("assistant" : String)]).filter
          (fun r => templContains template r) := by
  constructor
  · rfl
  · intro template vars msgs h
    unfold PromptBank.render at h
    cases ha : renderRole template vars ("system") with
    | error e => rw [ha] at h; exact Except.noConfusion h
    | ok a =>
      rw [ha] at h
      cases hb : renderRole template vars ("user") with
      | error e => rw [hb] at h; exact Except.noConfusion h
      | ok b =>
        rw [hb] at h
        cases hc : renderRole template vars ("assistant") with
        | error e => rw [hc] at h; exact Except.noConfusion h
        | ok c =>
          rw [hc] at h
          injection h with h2
          subst h2
          rw [List.map_append, List.map_append,
              renderRole_ok_roles template vars ("system") a ha,
              renderRole_ok_roles template vars ("user") b hb,
              renderRole_ok_roles template vars ("assistant") c hc]
          by_cases hs : templContains template ("system") <;>
            by_cases hu : templContains template ("user") <;>
              by_cases hasst : templContains template ("assistant") <;>
                simp [hs, hu, hasst, List.filter]

/-- Witness for `promptbank_render_spec`: its general part applied to the
greet template and bindings, the rendering hypothesis discharged by
computation. -/
theorem promptbank_render_spec_witness :
    ([(("user" : String), ("Hello Ada" : String))].map Prod.fst) =
      ([("system" : String), ("user" : String), ("assistant" : String)]).filter
        (fun r => templContains [(("user" : String), ("Hello \x7bname\x7d" : String))] r) :=
  promptbank_render_spec.2 [(("user" : String), ("Hello \x7bname\x7d" : String))]
    [(("name" : String), ("Ada" : String))] [(("user" : String), ("Hello Ada" : String))] rfl

/-- C9: the claim states `parse_llm_json` always returns a mapping.  The
function returns whatever `json.loads` first succeeds on, so JSON scalar or
array inputs — realistic LLM garbage — come back unchanged: `"3"` yields the
integer `3` and `"null"` yields `None`, not mappings, contradicting the
function's own `-> dict` annotation (its callers immediately invoke
`.keys()`/`.items()` on the result).  Inputs on which every `json.loads`
stage fails do produce a mapping. -/
theorem parse_llm_json_nonmapping :
    parse_llm_json ("3") = PVal.int 3 ∧
    (parse_llm_json ("3")).isDict = false ∧
    parse_llm_json ("null") = PVal.none ∧
    (parse_llm_json ("null")).isDict = false ∧
    parse_llm_json ("garbage !!") = PVal.dict [] :=
  ⟨rfl, rfl, rfl, rfl, rfl⟩

end QueryGym
